import Mathlib

/-!
Shallow embedding of the `aarch64-rt` startup runtime (`src/lib.rs`, `src/entry.rs`).

The crate brings up AArch64 cores: it reserves a page-aligned boot stack,
installs an exception vector table for the current exception level, and starts
secondary cores through the PSCI `CPU_ON` firmware call, delivering a one-shot
closure through a descriptor written at the tail of the target core's stack.

Machine addresses and sizes are modelled as `Nat` byte counts; the firmware
call (`smccc::psci::cpu_on`, an external crate) is a parameter of type
`Nat → Nat → Nat → Except E Unit`, mirroring `Result<(), smccc::psci::Error>`.
Straight-line imperative code is embedded as a function producing the list of
externally visible events it performs, in program order.
-/

namespace Aarch64Rt

/-! Boot stack (`Stack<NUM_PAGES>` and `StackPage` in `src/lib.rs`). -/

/-- One page of a core stack: `struct StackPage([u8; 4096])`. -/
structure StackPage where
  bytes : List Nat
deriving DecidableEq

/-- Zero-initialised page: `StackPage::new`, `Self([0; 4096])`. -/
def StackPage.new : StackPage :=
  ⟨List.replicate 4096 0⟩

/-- A stack for some CPU core: `struct Stack<const NUM_PAGES: usize>([StackPage; NUM_PAGES])`. -/
structure Stack (NUM_PAGES : Nat) where
  pages : List StackPage
  pages_length : pages.length = NUM_PAGES
deriving DecidableEq

/-- Zero-initialised stack: `Stack::new`, `Self([const { StackPage::new() }; NUM_PAGES])`. -/
def Stack.new (NUM_PAGES : Nat) : Stack NUM_PAGES :=
  ⟨List.replicate NUM_PAGES StackPage.new, List.length_replicate _ _⟩

/-- Total number of bytes occupied by the stack's pages. -/
def Stack.sizeBytes {N : Nat} (s : Stack N) : Nat :=
  (s.pages.map (fun p => p.bytes.length)).sum

/-- Byte contents of the stack, pages concatenated in order. -/
def Stack.flatBytes {N : Nat} (s : Stack N) : List Nat :=
  (s.pages.map (fun p => p.bytes)).flatten

/-- Alignment of `Stack<N>`, from `#[repr(C, align(4096))]`. -/
def Stack.alignBytes : Nat := 4096

/-- Default number of boot-stack pages reserved by `entry!($name)`,
which expands to `entry!($name, 40)`. -/
def entryDefaultBootStackPages : Nat := 40

/-! Build-time exception-level feature configuration (`src/lib.rs` lines 11-16). -/

/-- Cargo feature flags of the crate relevant to exception handling. -/
structure Features where
  el1 : Bool
  el2 : Bool
  el3 : Bool
  exceptions : Bool
deriving DecidableEq

/-- Condition of the `compile_error!("Only one el feature may be enabled at once.")`
guard: `any(all(el1, el2), all(el1, el3), all(el2, el3))`. -/
def elFeatureConflict (f : Features) : Bool :=
  (f.el1 && f.el2) || (f.el1 && f.el3) || (f.el2 && f.el3)

/-- Number of `el*` features enabled in a configuration. -/
def enabledElCount (f : Features) : Nat :=
  (cond f.el1 1 0) + (cond f.el2 1 0) + (cond f.el3 1 0)

/-! Exception-vector installation (`set_exception_vector` in `src/lib.rs`). -/

/-- The three compiled vector tables (`vector_table_el1/2/3` in `exceptions.S`). -/
inductive VectorTable where
  | el1
  | el2
  | el3
deriving DecidableEq

/-- Observable result of running `set_exception_vector`: a write to one of the
`vbar_elN` registers, a fatal panic, or no action at all. -/
inductive VectorOutcome where
  | installed (table : VectorTable)
  | fatal (msg : String)
  | nothingDone
deriving DecidableEq

/-- Decoding of the `CurrentEL` system register readout: `(current_el >> 2) & 0b11`. -/
def currentElDecode (current_el : Nat) : Nat :=
  (current_el >>> 2) &&& 0b11

/-- Embedding of `set_exception_vector`. The four `#[cfg(...)]` blocks of the
source are guarded by disjoint feature conditions (disjoint once the
`compile_error!` guard rules out two `el*` features at once), so the function is
rendered as a conditional chain over the feature flags; `current_el` is the
value the runtime-detection block reads from `CurrentEL`. -/
def set_exception_vector (f : Features) (current_el : Nat) : VectorOutcome :=
  if f.el1 && f.exceptions then .installed .el1
  else if f.el2 && f.exceptions then .installed .el2
  else if f.el3 && f.exceptions then .installed .el3
  else if f.exceptions && !f.el1 && !f.el2 && !f.el3 then
    if currentElDecode current_el = 1 then .installed .el1
    else if currentElDecode current_el = 2 then .installed .el2
    else if currentElDecode current_el = 3 then .installed .el3
    else .fatal "Unexpected EL"
  else .nothingDone

/-- The build configuration with no statically selected exception level and the
`exceptions` feature enabled. -/
def noElFeatures : Features :=
  ⟨false, false, false, true⟩

/-! Descriptor layout (`StartCoreStack<F>` in `src/lib.rs`). -/

/-- Rounds `n` up to the next multiple of `a` (for `a > 0`). -/
def roundUpTo (n a : Nat) : Nat :=
  (n + a - 1) / a * a

/-- Size and alignment of a Rust type layout. -/
structure ReprLayout where
  size : Nat
  align : Nat
deriving DecidableEq

/-- Layout of `#[repr(C, align(16))] struct StartCoreStack<F>` as a function of
the size and alignment of its `entry: Option<F>` field. Field 0 is
`trampoline_ptr`, a function pointer (size 8, alignment 8); `repr(C)` places
`entry` at offset 8 rounded up to its alignment, and pads the struct size to a
multiple of the struct alignment `max(16, max(8, entryAlign))`. -/
def startCoreStackLayout (entrySize entryAlign : Nat) : ReprLayout :=
  let entryOffset := roundUpTo 8 entryAlign
  let align := max 16 (max 8 entryAlign)
  ⟨roundUpTo (entryOffset + entrySize) align, align⟩

/-- Condition of the `const { assert!(...) }` in `start_core`:
`size_of::<StartCoreStack<F>>() <= size_of::<Stack<N>>()`. A build violating it
is rejected with "the rust_entry closure is too big to fit in the core stack". -/
def startCoreSizeAssertHolds (entrySize entryAlign N : Nat) : Prop :=
  (startCoreStackLayout entrySize entryAlign).size ≤ N * 4096

instance (entrySize entryAlign N : Nat) :
    Decidable (startCoreSizeAssertHolds entrySize entryAlign N) :=
  inferInstanceAs (Decidable (_ ≤ _))

/-- Bytes of `StartCoreStack<F>` not available to the `entry` slot's payload:
the struct's size minus the size of the `entry` field. -/
def descriptorHeaderSize (entrySize entryAlign : Nat) : Nat :=
  (startCoreStackLayout entrySize entryAlign).size - entrySize

/-! Secondary-core bring-up (`start_core` and `trampoline` in `src/lib.rs`). -/

/-- The descriptor written at the tail of the target core's stack:
`struct StartCoreStack<F> { trampoline_ptr: unsafe extern "C" fn(..) -> !, entry: Option<F> }`.
The function pointer is modelled by its code address. -/
structure StartCoreStack (F : Type) where
  trampoline_ptr : Nat
  entry : Option F
deriving DecidableEq

/-- Externally visible operations of `start_core`, in program order. -/
inductive StartCoreEvent (F : Type) where
  | writeDescriptor (addr : Nat) (desc : StartCoreStack F)
  | dsbSt
  | cpuOnCall (mpidr : Nat) (entryPoint : Nat) (context : Nat)
deriving DecidableEq

deriving instance DecidableEq for Except

/-- Result of running `start_core`: either an `assert!` panic (with the events
performed before it), or completion with the event list and the value returned
to the caller. -/
inductive StartCoreOutcome (F E : Type) where
  | fatal (msg : String) (events : List (StartCoreEvent F))
  | completed (events : List (StartCoreEvent F)) (result : Except E Unit)
deriving DecidableEq

/-- Embedding of `pub unsafe fn start_core<C, F, const N>(mpidr, stack, rust_entry)`.
Parameters standing for link-time constants: `cpu_on` is `smccc::psci::cpu_on::<C>`
(an external crate, modelled as an opaque-to-us function of the three call
arguments), `secondary_entry_addr` is the address of `secondary_entry`,
`trampoline_addr` the address of the `trampoline::<F>` instantiation, and
`descSize` is `size_of::<StartCoreStack<F>>()`. `stackAddr` is the `stack`
pointer's address; the source computes
`stack_end = stack.wrapping_add(1)` (adds `N * 4096` bytes) and writes the
descriptor at `stack_end.wrapping_sub(1)` (subtracts `descSize` bytes), then
issues `dsb st` and calls `cpu_on(mpidr, secondary_entry, stack_end.wrapping_sub(1))`.
The `assert!(stack.is_aligned())` check requires `stackAddr` to be a multiple of
4096, the alignment of `Stack<N>`. -/
def start_core {F E : Type} (cpu_on : Nat → Nat → Nat → Except E Unit)
    (secondary_entry_addr trampoline_addr descSize N : Nat)
    (mpidr stackAddr : Nat) (rust_entry : F) : StartCoreOutcome F E :=
  if stackAddr % 4096 = 0 then
    let stack_end := stackAddr + N * 4096
    let descAddr := stack_end - descSize
    let desc : StartCoreStack F := ⟨trampoline_addr, some rust_entry⟩
    .completed
      [.writeDescriptor descAddr desc, .dsbSt,
        .cpuOnCall mpidr secondary_entry_addr descAddr]
      (cpu_on mpidr secondary_entry_addr descAddr)
  else
    .fatal "assertion failed: stack.is_aligned()" []

/-- Behaviour of the caller-supplied work closure when invoked: it either
diverges (as its contract requires) or returns. -/
inductive WorkBehavior where
  | diverges
  | returns
deriving DecidableEq

/-- Steps performed by `trampoline::<F>`. `returnNormally` would be a normal
return from the trampoline; the embedding shows it is never emitted. -/
inductive TrampolineEvent (F : Type) where
  | takeSlot (taken : Option F)
  | invokeWork
  | fatalError (msg : String)
  | returnNormally
deriving DecidableEq

/-- Panic message of `.expect(...)` when the take-once slot is already empty. -/
def takeOnceMsg : String :=
  "entry object should only ever be taken once"

/-- Panic message raised when the work closure returns. -/
def neverReturnMsg : String :=
  "rust_entry function passed to start_core should never return"

/-- Embedding of `unsafe extern "C" fn trampoline<F>(start_args_ptr) -> !` as the
trace it executes on the descriptor `d`: a list of pairs (contents of the
descriptor's `entry` slot just before the step, step). `core::mem::take` empties
the slot and yields its previous contents; `.expect(takeOnceMsg)` panics when
that was `none`; otherwise the closure is invoked (`runWork` gives its
behaviour) and a returning closure triggers the final `panic!`. A diverging
closure means control never comes back, so the trace ends at `invokeWork`. -/
def trampoline {F : Type} (runWork : F → WorkBehavior) (d : StartCoreStack F) :
    List (Option F × TrampolineEvent F) :=
  match d.entry with
  | none => [(none, .takeSlot none), (none, .fatalError takeOnceMsg)]
  | some f =>
    match runWork f with
    | .diverges => [(some f, .takeSlot (some f)), (none, .invokeWork)]
    | .returns =>
      [(some f, .takeSlot (some f)), (none, .invokeWork),
        (none, .fatalError neverReturnMsg)]

/-! Helper lemmas. -/

theorem flatten_replicate_replicate (n k x : Nat) :
    (List.replicate n (List.replicate k x)).flatten = List.replicate (n * k) x := by
  induction n with
  | zero => simp
  | succ m ih =>
    rw [List.replicate_succ, List.flatten_cons, ih, Nat.succ_mul, Nat.add_comm,
      List.replicate_add]

theorem le_roundUpTo (n a : Nat) (ha : 1 ≤ a) : n ≤ roundUpTo n a := by
  unfold roundUpTo
  rw [Nat.mul_comm]
  have h1 := Nat.div_add_mod (n + a - 1) a
  have h2 : (n + a - 1) % a < a := Nat.mod_lt _ ha
  omega

theorem entrySize_le_startCoreStackLayout_size (entrySize entryAlign : Nat) :
    entrySize ≤ (startCoreStackLayout entrySize entryAlign).size := by
  have h := le_roundUpTo (roundUpTo 8 entryAlign + entrySize)
    (max 16 (max 8 entryAlign))
    (le_trans (by norm_num) (Nat.le_max_left 16 (max 8 entryAlign)))
  show entrySize ≤ roundUpTo (roundUpTo 8 entryAlign + entrySize)
    (max 16 (max 8 entryAlign))
  omega

/-! Theorems settling the claims. -/

/-- C6: for every page count `N`, `Stack<N>` occupies exactly `N * 4096` bytes,
is aligned to a 4096-byte boundary, `Stack::new()` produces an all-zero region,
and `entry!` with no explicit size argument reserves the default of 40 pages,
which is 163840 bytes. -/
theorem stack_size_align_zero_default (N : Nat) :
    (Stack.new N).sizeBytes = N * 4096 ∧
    Stack.alignBytes = 4096 ∧
    (Stack.new N).flatBytes = List.replicate (N * 4096) 0 ∧
    entryDefaultBootStackPages * 4096 = 163840 := by
  refine ⟨?_, rfl, ?_, rfl⟩
  · show ((List.replicate N StackPage.new).map (fun p => p.bytes.length)).sum
      = N * 4096
    rw [List.map_replicate]
    rw [show StackPage.new.bytes.length = 4096 from List.length_replicate _ _]
    rw [List.sum_replicate, smul_eq_mul]
  · show ((List.replicate N StackPage.new).map (fun p => p.bytes)).flatten
      = List.replicate (N * 4096) 0
    rw [List.map_replicate]
    exact flatten_replicate_replicate N 4096 0

/-- C8: at most one of the `el1`, `el2`, `el3` features may be enabled at once;
the `compile_error!` guard fires exactly when two or more of them are enabled,
and stays quiet when exactly one or none is enabled. -/
theorem el_feature_conflict_iff_two_or_more (f : Features) :
    elFeatureConflict f = true ↔ 2 ≤ enabledElCount f := by
  rcases f with ⟨e1, e2, e3, ex⟩
  cases e1 <;> cases e2 <;> cases e3 <;> cases ex <;> decide

/-- C4: with no exception level statically selected and the `exceptions` feature
enabled, `set_exception_vector` decodes the runtime `CurrentEL` readout; a
decoded value of 1, 2 or 3 installs the matching vector table into that level's
vector base register, and any other decoded value raises a fatal "Unexpected EL"
panic, installing nothing. -/
theorem set_exception_vector_runtime_detection (current_el : Nat) :
    (currentElDecode current_el = 1 →
      set_exception_vector noElFeatures current_el = .installed .el1) ∧
    (currentElDecode current_el = 2 →
      set_exception_vector noElFeatures current_el = .installed .el2) ∧
    (currentElDecode current_el = 3 →
      set_exception_vector noElFeatures current_el = .installed .el3) ∧
    (currentElDecode current_el ≠ 1 → currentElDecode current_el ≠ 2 →
      currentElDecode current_el ≠ 3 →
      set_exception_vector noElFeatures current_el = .fatal "Unexpected EL") := by
  refine ⟨fun h => ?_, fun h => ?_, fun h => ?_, fun h1 h2 h3 => ?_⟩
  · simp [set_exception_vector, noElFeatures, h]
  · simp [set_exception_vector, noElFeatures, h]
  · simp [set_exception_vector, noElFeatures, h]
  · simp [set_exception_vector, noElFeatures, h1, h2, h3]

/-- Witness for C4 at the four decoded values 1, 2, 3 and 0: readouts `1 <<< 2`,
`2 <<< 2`, `3 <<< 2` install the matching tables, and readout 0 is fatal. -/
theorem set_exception_vector_runtime_detection_witness :
    set_exception_vector noElFeatures 4 = .installed .el1 ∧
    set_exception_vector noElFeatures 8 = .installed .el2 ∧
    set_exception_vector noElFeatures 12 = .installed .el3 ∧
    set_exception_vector noElFeatures 0 = .fatal "Unexpected EL" :=
  ⟨(set_exception_vector_runtime_detection 4).1 (by decide),
    (set_exception_vector_runtime_detection 8).2.1 (by decide),
    (set_exception_vector_runtime_detection 12).2.2.1 (by decide),
    (set_exception_vector_runtime_detection 0).2.2.2 (by decide) (by decide)
      (by decide)⟩

/-- C1: every aligned `start_core` call performs exactly, and in this order, the
descriptor write at the stack tail (trampoline entry address plus the work
item), the `dsb st` store-completion barrier, and the firmware `CPU_ON` call;
the firmware call's outcome is returned to the caller unchanged. -/
theorem start_core_write_barrier_cpuOn_order {F E : Type}
    (cpu_on : Nat → Nat → Nat → Except E Unit)
    (secondary_entry_addr trampoline_addr descSize N mpidr stackAddr : Nat)
    (rust_entry : F) (haligned : stackAddr % 4096 = 0) :
    ∃ a, start_core cpu_on secondary_entry_addr trampoline_addr descSize N
        mpidr stackAddr rust_entry =
      .completed
        [.writeDescriptor a ⟨trampoline_addr, some rust_entry⟩, .dsbSt,
          .cpuOnCall mpidr secondary_entry_addr a]
        (cpu_on mpidr secondary_entry_addr a) :=
  ⟨stackAddr + N * 4096 - descSize, by simp [start_core, haligned]⟩

/-- Witness for C1: a concrete aligned call with a four-page stack and a
firmware that reports success. -/
theorem start_core_write_barrier_cpuOn_order_witness :
    ∃ a, start_core (F := Nat) (fun _ _ _ => Except.ok (ε := Unit) ())
        100 200 16 4 1 4096 7 =
      .completed
        [.writeDescriptor a ⟨200, some 7⟩, .dsbSt, .cpuOnCall 1 100 a]
        (Except.ok ()) :=
  start_core_write_barrier_cpuOn_order (fun _ _ _ => Except.ok ())
    100 200 16 4 1 4096 7 (by decide)

/-- Counterexample for C2: with a one-page stack at address 4096 and a 16-byte
descriptor, the context argument of the `CPU_ON` call is 8176, the descriptor's
own address, not the one-past-the-end stack-top address 4096 + 1 * 4096 = 8192
that the claim asserts. -/
theorem start_core_context_counterexample :
    start_core (F := Nat) (fun _ _ _ => Except.ok (ε := Unit) ())
        100 200 16 1 1 4096 7 =
      .completed
        [.writeDescriptor 8176 ⟨200, some 7⟩, .dsbSt, .cpuOnCall 1 100 8176]
        (Except.ok ()) ∧
    (8176 : Nat) ≠ 4096 + 1 * 4096 := by
  exact ⟨by decide, by decide⟩

/-- C2 (amended): the context argument passed to the firmware `CPU_ON` call is
the descriptor's own address — the one-past-the-end address of the `N`-page
stack region minus `size_of::<StartCoreStack<F>>()` — which is also exactly the
address at which the descriptor was written. -/
theorem start_core_context_is_descriptor_address {F E : Type}
    (cpu_on : Nat → Nat → Nat → Except E Unit)
    (secondary_entry_addr trampoline_addr descSize N mpidr stackAddr : Nat)
    (rust_entry : F) (haligned : stackAddr % 4096 = 0) :
    start_core cpu_on secondary_entry_addr trampoline_addr descSize N
        mpidr stackAddr rust_entry =
      .completed
        [.writeDescriptor (stackAddr + N * 4096 - descSize)
            ⟨trampoline_addr, some rust_entry⟩, .dsbSt,
          .cpuOnCall mpidr secondary_entry_addr
            (stackAddr + N * 4096 - descSize)]
        (cpu_on mpidr secondary_entry_addr
          (stackAddr + N * 4096 - descSize)) := by
  simp [start_core, haligned]

/-- Witness for the amended C2: a concrete aligned call; the context equals the
write address 8192 + 2 * 4096 - 16 = 16368. -/
theorem start_core_context_is_descriptor_address_witness :
    start_core (F := Nat) (fun _ _ _ => Except.ok (ε := Unit) ())
        300 400 16 2 5 8192 9 =
      .completed
        [.writeDescriptor (8192 + 2 * 4096 - 16) ⟨400, some 9⟩, .dsbSt,
          .cpuOnCall 5 300 (8192 + 2 * 4096 - 16)]
        (Except.ok ()) :=
  start_core_context_is_descriptor_address (fun _ _ _ => Except.ok ())
    300 400 16 2 5 8192 9 (by decide)

/-- C9: `start_core` checks at runtime that the supplied stack pointer is
4096-byte aligned (the alignment of `Stack<N>`) and, when it is misaligned,
panics having performed no event at all: no descriptor write, no barrier, and
no firmware call. -/
theorem start_core_misaligned_panics {F E : Type}
    (cpu_on : Nat → Nat → Nat → Except E Unit)
    (secondary_entry_addr trampoline_addr descSize N mpidr stackAddr : Nat)
    (rust_entry : F) (hmis : stackAddr % 4096 ≠ 0) :
    start_core cpu_on secondary_entry_addr trampoline_addr descSize N
        mpidr stackAddr rust_entry =
      .fatal "assertion failed: stack.is_aligned()" [] := by
  simp [start_core, hmis]

/-- Witness for C9: a misaligned stack pointer (address 8) panics with an empty
event list. -/
theorem start_core_misaligned_panics_witness :
    start_core (F := Nat) (fun _ _ _ => Except.ok (ε := Unit) ())
        100 200 16 4 1 8 7 =
      .fatal "assertion failed: stack.is_aligned()" [] :=
  start_core_misaligned_panics (fun _ _ _ => Except.ok ())
    100 200 16 4 1 8 7 (by decide)

/-- C3: invoking the trampoline on a descriptor whose take-once slot is already
empty panics with the take-once message; it performs no invocation of the work
item, so it is neither a silent no-op nor a second run of the work. -/
theorem trampoline_consumed_descriptor_fatal {F : Type}
    (runWork : F → WorkBehavior) (d : StartCoreStack F)
    (hempty : d.entry = none) :
    trampoline runWork d =
      [(none, .takeSlot none), (none, .fatalError takeOnceMsg)] ∧
    ∀ p ∈ trampoline runWork d, p.2 ≠ TrampolineEvent.invokeWork := by
  have ht : trampoline runWork d =
      [(none, .takeSlot none), (none, .fatalError takeOnceMsg)] := by
    simp [trampoline, hempty]
  refine ⟨ht, ?_⟩
  rw [ht]
  intro p hp
  simp only [List.mem_cons, List.not_mem_nil, or_false] at hp
  rcases hp with rfl | rfl <;> simp

/-- Witness for C3: the trampoline applied to an already-consumed concrete
descriptor over `Nat` work items. -/
theorem trampoline_consumed_descriptor_fatal_witness :
    trampoline (fun _ : Nat => WorkBehavior.diverges) ⟨0, none⟩ =
      [(none, .takeSlot none), (none, .fatalError takeOnceMsg)] ∧
    ∀ p ∈ trampoline (fun _ : Nat => WorkBehavior.diverges) ⟨0, none⟩,
      p.2 ≠ TrampolineEvent.invokeWork :=
  trampoline_consumed_descriptor_fatal (fun _ => WorkBehavior.diverges)
    ⟨0, none⟩ rfl

/-- C7: when the work item taken from the descriptor returns instead of
diverging, the trampoline's last step is the fatal "never return" panic; and on
every path, for every descriptor and work behaviour, the trampoline never
performs a normal return. -/
theorem trampoline_never_returns {F : Type} (runWork : F → WorkBehavior)
    (d : StartCoreStack F) (f : F) (hslot : d.entry = some f)
    (hret : runWork f = WorkBehavior.returns) :
    (trampoline runWork d).getLast? =
      some (none, .fatalError neverReturnMsg) ∧
    ∀ (d' : StartCoreStack F) (runWork' : F → WorkBehavior),
      ∀ p ∈ trampoline runWork' d', p.2 ≠ TrampolineEvent.returnNormally := by
  constructor
  · simp [trampoline, hslot, hret]
  · intro d' runWork' p hp
    cases hd : d'.entry with
    | none =>
      simp only [trampoline, hd, List.mem_cons, List.not_mem_nil, or_false]
        at hp
      rcases hp with rfl | rfl <;> simp
    | some g =>
      cases hw : runWork' g with
      | diverges =>
        simp only [trampoline, hd, hw, List.mem_cons, List.not_mem_nil,
          or_false] at hp
        rcases hp with rfl | rfl <;> simp
      | returns =>
        simp only [trampoline, hd, hw, List.mem_cons, List.not_mem_nil,
          or_false] at hp
        rcases hp with rfl | rfl | rfl <;> simp

/-- Witness for C7: a descriptor holding the work item 7 whose behaviour is to
return; the trace ends in the fatal panic and contains no normal return. -/
theorem trampoline_never_returns_witness :
    (trampoline (fun _ : Nat => WorkBehavior.returns) ⟨0, some 7⟩).getLast? =
      some (none, .fatalError neverReturnMsg) ∧
    ∀ (d' : StartCoreStack Nat) (runWork' : Nat → WorkBehavior),
      ∀ p ∈ trampoline runWork' d', p.2 ≠ TrampolineEvent.returnNormally :=
  trampoline_never_returns (fun _ => WorkBehavior.returns) ⟨0, some 7⟩ 7
    rfl rfl

/-- C10: whenever the trampoline's trace invokes the work item at step `i`, the
take-once slot was emptied at a strictly earlier step, and the descriptor's
slot is `none` at step `i` and at every later step: no second usable copy of
the work item remains in the descriptor once it starts executing. -/
theorem trampoline_empties_slot_before_invoke {F : Type}
    (runWork : F → WorkBehavior) (d : StartCoreStack F) (i : Nat)
    (p : Option F × TrampolineEvent F)
    (hp : (trampoline runWork d)[i]? = some p)
    (hev : p.2 = TrampolineEvent.invokeWork) :
    (∃ j q, j < i ∧ (trampoline runWork d)[j]? = some q ∧
      ∃ t, q.2 = TrampolineEvent.takeSlot t) ∧
    ∀ k q, i ≤ k → (trampoline runWork d)[k]? = some q → q.1 = none := by
  cases hd : d.entry with
  | none =>
    have ht : trampoline runWork d =
        [((none : Option F), TrampolineEvent.takeSlot none),
          (none, .fatalError takeOnceMsg)] := by
      simp [trampoline, hd]
    rw [ht] at hp
    rcases i with _ | _ | i
    · simp only [List.getElem?_cons_zero, Option.some.injEq] at hp
      rw [← hp] at hev
      simp at hev
    · simp only [List.getElem?_cons_succ, List.getElem?_cons_zero,
        Option.some.injEq] at hp
      rw [← hp] at hev
      simp at hev
    · simp [List.getElem?_cons_succ] at hp
  | some f =>
    cases hw : runWork f with
    | diverges =>
      have ht : trampoline runWork d =
          [(some f, TrampolineEvent.takeSlot (some f)),
            ((none : Option F), .invokeWork)] := by
        simp [trampoline, hd, hw]
      rw [ht] at hp ⊢
      rcases i with _ | _ | i
      · simp only [List.getElem?_cons_zero, Option.some.injEq] at hp
        rw [← hp] at hev
        simp at hev
      · refine ⟨⟨0, (some f, TrampolineEvent.takeSlot (some f)),
          Nat.zero_lt_one, rfl, some f, rfl⟩, ?_⟩
        intro k q hk hq
        rcases k with _ | _ | k
        · omega
        · simp only [List.getElem?_cons_succ, List.getElem?_cons_zero,
            Option.some.injEq] at hq
          rw [← hq]
        · simp [List.getElem?_cons_succ] at hq
      · simp [List.getElem?_cons_succ] at hp
    | returns =>
      have ht : trampoline runWork d =
          [(some f, TrampolineEvent.takeSlot (some f)),
            ((none : Option F), .invokeWork),
            (none, .fatalError neverReturnMsg)] := by
        simp [trampoline, hd, hw]
      rw [ht] at hp ⊢
      rcases i with _ | _ | _ | i
      · simp only [List.getElem?_cons_zero, Option.some.injEq] at hp
        rw [← hp] at hev
        simp at hev
      · refine ⟨⟨0, (some f, TrampolineEvent.takeSlot (some f)),
          Nat.zero_lt_one, rfl, some f, rfl⟩, ?_⟩
        intro k q hk hq
        rcases k with _ | _ | _ | k
        · omega
        · simp only [List.getElem?_cons_succ, List.getElem?_cons_zero,
            Option.some.injEq] at hq
          rw [← hq]
        · simp only [List.getElem?_cons_succ, List.getElem?_cons_zero,
            Option.some.injEq] at hq
          rw [← hq]
        · simp [List.getElem?_cons_succ] at hq
      · simp only [List.getElem?_cons_succ, List.getElem?_cons_zero,
          Option.some.injEq] at hp
        rw [← hp] at hev
        simp at hev
      · simp [List.getElem?_cons_succ] at hp

/-- Witness for C10: the work invocation at step 1 of a concrete trace; the
take happened at step 0 and the slot is empty from step 1 on. -/
theorem trampoline_empties_slot_before_invoke_witness :
    (∃ j q, j < 1 ∧
      (trampoline (fun _ : Nat => WorkBehavior.diverges) ⟨0, some 7⟩)[j]? =
        some q ∧ ∃ t, q.2 = TrampolineEvent.takeSlot t) ∧
    ∀ k q, 1 ≤ k →
      (trampoline (fun _ : Nat => WorkBehavior.diverges) ⟨0, some 7⟩)[k]? =
        some q → q.1 = none :=
  trampoline_empties_slot_before_invoke (fun _ => WorkBehavior.diverges)
    ⟨0, some 7⟩ 1 (none, .invokeWork) rfl rfl

/-- C5: given that the non-payload bytes of the descriptor fit in the stack,
the compile-time assertion in `start_core` accepts the build exactly when the
`entry` slot's packed size fits within the stack size minus the descriptor
header size; an oversized work closure is rejected at build time, never
silently truncated. -/
theorem start_core_size_gate_iff (entrySize entryAlign N : Nat)
    (hheader : descriptorHeaderSize entrySize entryAlign ≤ N * 4096) :
    startCoreSizeAssertHolds entrySize entryAlign N ↔
      entrySize ≤ N * 4096 - descriptorHeaderSize entrySize entryAlign := by
  have hle := entrySize_le_startCoreStackLayout_size entrySize entryAlign
  unfold descriptorHeaderSize at hheader ⊢
  unfold startCoreSizeAssertHolds
  omega

/-- Witness for C5: an 8-byte, 8-aligned slot in a one-page stack; the
descriptor header occupies 8 of the 16 descriptor bytes. -/
theorem start_core_size_gate_iff_witness :
    startCoreSizeAssertHolds 8 8 1 ↔ 8 ≤ 1 * 4096 - descriptorHeaderSize 8 8 :=
  start_core_size_gate_iff 8 8 1 (by decide)

end Aarch64Rt
